import Mathlib

set_option linter.unusedVariables false

namespace SecureTransportScratch

/-- A byte, as staged in the Python bytearray buffers of tlsapi.py. -/
abbrev Byte := Nat

/-- The pair of staging buffers owned by a _SecureTransportBuffer instance
(tlsapi.py lines 183-184): ingress ciphertext in receive_buffer,
egress ciphertext in send_buffer. -/
structure BufState where
  receive_buffer : List Byte
  send_buffer : List Byte
deriving DecidableEq

/-- Engine status codes the IO callbacks can return: 0 (success) or
errSSLWouldBlock, as used by _read_func and _write_func. -/
inductive SSLStatus where
  | noErr
  | errSSLWouldBlock
deriving DecidableEq

namespace SecureTransportBuffer

/-- Embedding of _SecureTransportBuffer._read_func (tlsapi.py 186-196):
slices the leading to_read bytes off the receive buffer, deletes them,
and returns errSSLWouldBlock exactly when the slice is shorter than
requested. -/
def read_func (s : BufState) (to_read : Nat) : SSLStatus × List Byte × BufState :=
  let output_data := s.receive_buffer.take to_read
  let rc := if output_data.length < to_read then SSLStatus.errSSLWouldBlock
            else SSLStatus.noErr
  (rc, output_data, ⟨s.receive_buffer.drop to_read, s.send_buffer⟩)

/-- Embedding of _SecureTransportBuffer._write_func (tlsapi.py 198-200):
appends all given bytes to the send buffer and reports full success. -/
def write_func (s : BufState) (data : List Byte) : SSLStatus × Nat × BufState :=
  (SSLStatus.noErr, data.length, ⟨s.receive_buffer, s.send_buffer ++ data⟩)

/-- Embedding of _SecureTransportBuffer.receive_bytes_from_network
(tlsapi.py 258-259): appends network bytes to the receive buffer. -/
def receive_bytes_from_network (s : BufState) (bs : List Byte) : BufState :=
  ⟨s.receive_buffer ++ bs, s.send_buffer⟩

/-- Embedding of _SecureTransportBuffer.peek_bytes (tlsapi.py 261-262):
returns the leading n bytes of the send buffer without removing them. -/
def peek_bytes (s : BufState) (n : Nat) : List Byte :=
  s.send_buffer.take n

/-- Embedding of _SecureTransportBuffer.consume_bytes (tlsapi.py 264-265):
deletes the leading n bytes of the send buffer. -/
def consume_bytes (s : BufState) (n : Nat) : BufState :=
  ⟨s.receive_buffer, s.send_buffer.drop n⟩

end SecureTransportBuffer

open SecureTransportBuffer

/-- An interleaved history of ingress-buffer operations: appends performed by
receive_bytes_from_network and reads performed by the engine read callback. -/
inductive BufOp where
  | app (bs : List Byte)
  | rd (n : Nat)

/-- Runs a history of ingress operations from a starting buffer state,
collecting the concatenation of all bytes the read callback returned. -/
def runOps : List BufOp → BufState → List Byte × BufState
  | [], s => ([], s)
  | BufOp.app bs :: ops, s => runOps ops (receive_bytes_from_network s bs)
  | BufOp.rd n :: ops, s =>
      let r := read_func s n
      let rest := runOps ops r.2.2
      (r.2.1 ++ rest.1, rest.2)

/-- The concatenation of every byte string appended during a history. -/
def appendsOf : List BufOp → List Byte
  | [] => []
  | BufOp.app bs :: ops => bs ++ appendsOf ops
  | BufOp.rd _ :: ops => appendsOf ops

theorem runOps_invariant (ops : List BufOp) (s : BufState) :
    (runOps ops s).1 ++ (runOps ops s).2.receive_buffer =
      s.receive_buffer ++ appendsOf ops := by
  induction ops generalizing s with
  | nil => simp [runOps, appendsOf]
  | cons op ops ih =>
    cases op with
    | app bs =>
      simp only [runOps, appendsOf]
      rw [ih]
      simp [receive_bytes_from_network, List.append_assoc]
    | rd n =>
      simp only [runOps, appendsOf, read_func]
      rw [List.append_assoc, ih]
      simp only []
      rw [← List.append_assoc, List.take_append_drop]

theorem runOps_append (ops₁ ops₂ : List BufOp) (s : BufState) :
    runOps (ops₁ ++ ops₂) s =
      ((runOps ops₁ s).1 ++ (runOps ops₂ (runOps ops₁ s).2).1,
        (runOps ops₂ (runOps ops₁ s).2).2) := by
  induction ops₁ generalizing s with
  | nil => simp [runOps]
  | cons op ops ih =>
    cases op with
    | app bs => simp [runOps, ih]
    | rd n => simp [runOps, ih]

/-- C4: the engine read callback returns the leading min(available, requested)
bytes of ingress, removes exactly those bytes (the old ingress is the returned
slice followed by the new ingress), leaves egress untouched, reports
errSSLWouldBlock exactly when fewer bytes than requested are returned (so on
empty ingress with a positive request it reports would-block with zero bytes),
and never returns any status other than success or would-block. -/
theorem c4_read_callback_contract (s : BufState) (n : Nat) :
    (read_func s n).2.1 = s.receive_buffer.take n ∧
    (read_func s n).2.1.length = min n s.receive_buffer.length ∧
    (read_func s n).2.2 = ⟨s.receive_buffer.drop n, s.send_buffer⟩ ∧
    s.receive_buffer = (read_func s n).2.1 ++ (read_func s n).2.2.receive_buffer ∧
    ((read_func s n).1 = SSLStatus.errSSLWouldBlock ↔ (read_func s n).2.1.length < n) ∧
    (s.receive_buffer = [] → 0 < n →
      (read_func s n).1 = SSLStatus.errSSLWouldBlock ∧ (read_func s n).2.1 = []) ∧
    ((read_func s n).1 = SSLStatus.noErr ∨ (read_func s n).1 = SSLStatus.errSSLWouldBlock) := by
  refine ⟨rfl, by simp [read_func], rfl, by simp [read_func], ?_, ?_, ?_⟩
  · unfold read_func
    simp only [List.length_take]
    by_cases h : min n s.receive_buffer.length < n <;> simp [h, List.length_take]
  · intro he hn
    unfold read_func
    simp [he, hn]
  · unfold read_func
    simp only [List.length_take]
    by_cases h : min n s.receive_buffer.length < n <;> simp [h]

/-- Witness for C4: discharges the empty-ingress hypotheses at ingress = [],
request = 3. -/
theorem c4_read_callback_contract_witness :
    (read_func ⟨[], []⟩ 3).1 = SSLStatus.errSSLWouldBlock ∧
      (read_func ⟨[], []⟩ 3).2.1 = [] :=
  (c4_read_callback_contract ⟨[], []⟩ 3).2.2.2.2.2.1 rfl (by decide)

/-- C5: over any interleaving of network appends and engine reads starting
from an empty ingress buffer, the concatenation of all bytes ever returned by
the read callback is a prefix of the concatenation of all bytes appended (in
order, nothing lost, fabricated or reordered), and one further sufficiently
large read makes the totals equal. -/
theorem c5_ingress_fifo (ops : List BufOp) :
    (∃ rest, appendsOf ops = (runOps ops ⟨[], []⟩).1 ++ rest) ∧
    (∀ m, (runOps ops ⟨[], []⟩).2.receive_buffer.length ≤ m →
      (runOps (ops ++ [BufOp.rd m]) ⟨[], []⟩).1 = appendsOf ops) := by
  have hinv := runOps_invariant ops ⟨[], []⟩
  simp only [List.nil_append] at hinv
  constructor
  · exact ⟨(runOps ops ⟨[], []⟩).2.receive_buffer, hinv.symm⟩
  · intro m hm
    rw [runOps_append]
    simp only [runOps, read_func]
    rw [List.take_of_length_le hm]
    simpa using hinv

/-- Witness for C5: a concrete interleaving (append 1,2,3; read 2; append 4)
followed by a final read of the 2 remaining bytes retrieves every appended
byte in order. -/
theorem c5_ingress_fifo_witness :
    (runOps ([BufOp.app [1, 2, 3], BufOp.rd 2, BufOp.app [4]] ++ [BufOp.rd 2])
        ⟨[], []⟩).1 =
      appendsOf [BufOp.app [1, 2, 3], BufOp.rd 2, BufOp.app [4]] :=
  (c5_ingress_fifo [BufOp.app [1, 2, 3], BufOp.rd 2, BufOp.app [4]]).2 2 (by decide)

/-- C6: one flush step peeks the leading chunk of egress and, when the socket
confirms only k of those bytes, consume_bytes k removes exactly the first k
bytes: the confirmed bytes are the leading k bytes of egress, the remainder
stays in egress unchanged and in order (old egress = confirmed ++ new egress),
the ingress buffer is untouched, and exactly k bytes leave the buffer. -/
theorem c6_partial_send (s : BufState) (k : Nat)
    (hk : k ≤ (peek_bytes s 8192).length) :
    (peek_bytes s 8192).take k = s.send_buffer.take k ∧
    (consume_bytes s k).send_buffer = s.send_buffer.drop k ∧
    (consume_bytes s k).receive_buffer = s.receive_buffer ∧
    s.send_buffer.take k ++ (consume_bytes s k).send_buffer = s.send_buffer ∧
    (consume_bytes s k).send_buffer.length = s.send_buffer.length - k := by
  have h8 : k ≤ 8192 := by
    have := hk
    simp [peek_bytes, List.length_take] at this
    omega
  refine ⟨?_, rfl, rfl, ?_, ?_⟩
  · simp [peek_bytes, List.take_take, Nat.min_eq_left h8]
  · simp [consume_bytes, List.take_append_drop]
  · simp [consume_bytes, List.length_drop]

/-- Witness for C6: with 10 queued egress bytes and a socket send confirming
only 3, the 7 remaining bytes stay queued in order. -/
theorem c6_partial_send_witness :
    (consume_bytes ⟨[], [0, 1, 2, 3, 4, 5, 6, 7, 8, 9]⟩ 3).send_buffer =
      ([0, 1, 2, 3, 4, 5, 6, 7, 8, 9] : List Byte).drop 3 :=
  (c6_partial_send ⟨[], [0, 1, 2, 3, 4, 5, 6, 7, 8, 9]⟩ 3 (by decide)).2.1

/-- One callback interaction the engine performs against the staging buffers
during a single engine call: a read through _read_func or a write through
_write_func (the engine touches the buffers only through these two
callbacks, installed by set_io_funcs in tlsapi.py 179). -/
inductive EngineAct where
  | engineRead (n : Nat)
  | engineWrite (data : List Byte)

/-- Effect of one callback interaction on the staging buffers. -/
def runAct (s : BufState) : EngineAct → BufState
  | EngineAct.engineRead n => (read_func s n).2.2
  | EngineAct.engineWrite d => (write_func s d).2.2

/-- Effect on the staging buffers of the whole callback trace of one engine
call. -/
def runActs (acts : List EngineAct) (s : BufState) : BufState :=
  acts.foldl runAct s

/-- The ciphertext the engine pushed to egress during a callback trace. -/
def writesOf : List EngineAct → List Byte
  | [] => []
  | EngineAct.engineRead _ :: acts => writesOf acts
  | EngineAct.engineWrite d :: acts => d ++ writesOf acts

theorem runActs_send_buffer (acts : List EngineAct) (s : BufState) :
    (runActs acts s).send_buffer = s.send_buffer ++ writesOf acts := by
  induction acts generalizing s with
  | nil => simp [runActs, writesOf]
  | cons a acts ih =>
    have hstep : runActs (a :: acts) s = runActs acts (runAct s a) := rfl
    rw [hstep, ih]
    cases a with
    | engineRead n => simp [runAct, read_func, writesOf]
    | engineWrite d => simp [runAct, write_func, writesOf]

/-- Status of a whole engine call (SSLHandshake / SSLRead / SSLClose):
success, errSSLWouldBlock (surfaced by the low-level binding as
WouldBlockError), or any other fatal SecureTransportError. -/
inductive EngineStatus where
  | ok
  | wouldBlock
  | fatal
deriving DecidableEq

/-- The caller-visible outcome of a buffer-wrapper call: normal return, the
WantReadError / WantWriteError signals of tls.py, or a propagated fatal
engine error. -/
inductive TLSResult where
  | ok
  | wantRead
  | wantWrite
  | engineError
deriving DecidableEq

namespace SecureTransportBuffer

/-- Embedding of _SecureTransportBuffer.do_handshake (tlsapi.py 225-232): one
engine handshake call, characterized by the callback trace acts it performs
and the status st it returns. On WouldBlockError the method raises
WantWriteError when self._send_buffer is non-empty and WantReadError
otherwise; any other engine failure propagates. -/
def do_handshake (acts : List EngineAct) : EngineStatus → BufState → TLSResult × BufState
  | EngineStatus.ok, s => (TLSResult.ok, runActs acts s)
  | EngineStatus.wouldBlock, s =>
      if (runActs acts s).send_buffer.isEmpty then (TLSResult.wantRead, runActs acts s)
      else (TLSResult.wantWrite, runActs acts s)
  | EngineStatus.fatal, s => (TLSResult.engineError, runActs acts s)

/-- Embedding of _SecureTransportBuffer.shutdown (tlsapi.py 248-256): the
engine close call with the same would-block classification as do_handshake. -/
def shutdown (acts : List EngineAct) : EngineStatus → BufState → TLSResult × BufState
  | EngineStatus.ok, s => (TLSResult.ok, runActs acts s)
  | EngineStatus.wouldBlock, s =>
      if (runActs acts s).send_buffer.isEmpty then (TLSResult.wantRead, runActs acts s)
      else (TLSResult.wantWrite, runActs acts s)
  | EngineStatus.fatal, s => (TLSResult.engineError, runActs acts s)

end SecureTransportBuffer

/-- The egress buffer gained bytes during an engine call with callback trace
acts starting from state s. -/
def egressGained (acts : List EngineAct) (s : BufState) : Prop :=
  s.send_buffer.length < (runActs acts s).send_buffer.length

instance egressGainedDec (acts : List EngineAct) (s : BufState) :
    Decidable (egressGained acts s) := by
  unfold egressGained
  exact Nat.decLt _ _

/-- C1 counterexample: an engine handshake call that performs no callback IO
and returns would-block, on a state whose egress still holds one byte from an
earlier call, raises WantWriteError although the egress buffer gained no
bytes during this call — the code classifies on leftover egress content, not
on the delta produced by this call, refuting the claimed iff. -/
theorem c1_counterexample :
    (SecureTransportBuffer.do_handshake [] EngineStatus.wouldBlock ⟨[], [1]⟩).1 =
        TLSResult.wantWrite ∧
      ¬ egressGained [] ⟨[], [1]⟩ ∧
      ¬ ((SecureTransportBuffer.do_handshake [] EngineStatus.wouldBlock ⟨[], [1]⟩).1 =
            TLSResult.wantWrite ↔ egressGained [] ⟨[], [1]⟩) := by
  decide

/-- C1 amended: for every handshake or shutdown call on the buffer wrapper
that ends in an engine would-block, the call raises WantWriteError if and
only if the egress buffer is non-empty at the end of the failed call —
equivalently, iff it gained bytes during this call or already held bytes
left from earlier calls — and raises WantReadError otherwise; shutdown
classifies exactly as do_handshake does. -/
theorem c1_amended (acts : List EngineAct) (s : BufState) :
    ((SecureTransportBuffer.do_handshake acts EngineStatus.wouldBlock s).1 =
        TLSResult.wantWrite ↔ s.send_buffer ≠ [] ∨ egressGained acts s) ∧
    ((SecureTransportBuffer.do_handshake acts EngineStatus.wouldBlock s).1 =
        TLSResult.wantRead ↔ s.send_buffer = [] ∧ ¬ egressGained acts s) ∧
    (SecureTransportBuffer.shutdown acts EngineStatus.wouldBlock s).1 =
      (SecureTransportBuffer.do_handshake acts EngineStatus.wouldBlock s).1 := by
  have hsend := runActs_send_buffer acts s
  have hgain : egressGained acts s ↔ writesOf acts ≠ [] := by
    unfold egressGained
    rw [hsend, List.length_append]
    constructor
    · intro h hw
      rw [hw] at h
      simp at h
    · intro h
      have hpos : 0 < (writesOf acts).length := List.length_pos.mpr h
      omega
  have hcond : ((runActs acts s).send_buffer.isEmpty = true) ↔
      (s.send_buffer = [] ∧ ¬ egressGained acts s) := by
    rw [List.isEmpty_iff, hsend, List.append_eq_nil, hgain]
    tauto
  refine ⟨?_, ?_, rfl⟩
  · by_cases hc : (runActs acts s).send_buffer.isEmpty
    · have hrhs := hcond.mp hc
      simp [SecureTransportBuffer.do_handshake, hc]
      tauto
    · have hrhs : ¬ (s.send_buffer = [] ∧ ¬ egressGained acts s) := fun h => hc (hcond.mpr h)
      simp [SecureTransportBuffer.do_handshake, hc]
      tauto
  · by_cases hc : (runActs acts s).send_buffer.isEmpty
    · have hrhs := hcond.mp hc
      simp [SecureTransportBuffer.do_handshake, hc]
      tauto
    · have hrhs : ¬ (s.send_buffer = [] ∧ ¬ egressGained acts s) := fun h => hc (hcond.mpr h)
      simp [SecureTransportBuffer.do_handshake, hc]
      tauto

/-- Witness for C1 amended: an engine call that stages one egress byte and
would-blocks raises WantWriteError from an initially empty egress buffer. -/
theorem c1_amended_witness :
    (SecureTransportBuffer.do_handshake [EngineAct.engineWrite [5]]
        EngineStatus.wouldBlock ⟨[], []⟩).1 = TLSResult.wantWrite :=
  ((c1_amended [EngineAct.engineWrite [5]] ⟨[], []⟩).1).mpr (Or.inr (by decide))

/-- Result of one engine SSLRead call, characterized by the plaintext it
returns or its failure mode, together with its effect on the staging
buffers (the engine touches them only through the installed callbacks). -/
inductive EngineReadRes where
  | ok (data : List Byte) (s' : BufState)
  | wouldBlock (s' : BufState)
  | fatal (s' : BufState)

/-- Outcome of _SecureTransportBuffer.read / WrappedSocket.recv: returned
plaintext, the WantReadError signal, a propagated fatal engine error, or a
failure of the assert statement guarding amt. -/
inductive ReadOutcome where
  | ok (data : List Byte)
  | wantRead
  | engineError
  | assertionError
deriving DecidableEq

namespace SecureTransportBuffer

/-- Embedding of _SecureTransportBuffer.read (tlsapi.py 202-207): asserts
that amt is not None, performs one engine read (er characterizes the engine),
and converts WouldBlockError into WantReadError. -/
def read (er : BufState → Nat → EngineReadRes) :
    Option Nat → BufState → ReadOutcome × BufState
  | none, s => (ReadOutcome.assertionError, s)
  | some amt, s =>
    match er s amt with
    | EngineReadRes.ok d s' => (ReadOutcome.ok d, s')
    | EngineReadRes.wouldBlock s' => (ReadOutcome.wantRead, s')
    | EngineReadRes.fatal s' => (ReadOutcome.engineError, s')

end SecureTransportBuffer

/-- C10: _SecureTransportBuffer.read with amt = None fails its assertion (it
does not fall through to a read-until-EOF), and whenever amt is a concrete
integer the assertion branch is unreachable, for every engine behavior and
every buffer state. -/
theorem c10_read_requires_amt (er : BufState → Nat → EngineReadRes) (s : BufState) :
    (SecureTransportBuffer.read er none s).1 = ReadOutcome.assertionError ∧
    ∀ n : Nat, (SecureTransportBuffer.read er (some n) s).1 ≠ ReadOutcome.assertionError := by
  refine ⟨rfl, ?_⟩
  intro n
  unfold SecureTransportBuffer.read
  cases h : er s n <;> simp [h]

/-- Witness for C10: a concrete engine and a concrete integer amount never
reach the assertion branch. -/
theorem c10_read_requires_amt_witness :
    (SecureTransportBuffer.read (fun s _ => EngineReadRes.wouldBlock s)
        (some 4) ⟨[], []⟩).1 ≠ ReadOutcome.assertionError :=
  (c10_read_requires_amt (fun s _ => EngineReadRes.wouldBlock s) ⟨[], []⟩).2 4

namespace WrappedSocket

/-- Embedding of WrappedSocket.recv (tlsapi.py 123-133): try a buffer read;
on WantReadError perform a single socket recv — sock_data holds the bytes it
returned; on a blocking socket it blocks until bytes arrive or returns the
empty string on peer EOF — then return the empty string on EOF, or feed the
bytes to ingress and retry the buffer read once, letting any exception the
retry raises propagate to the application. -/
def recv (er : BufState → Nat → EngineReadRes) (sock_data : List Byte)
    (s : BufState) (bufsize : Nat) : ReadOutcome × BufState :=
  match SecureTransportBuffer.read er (some bufsize) s with
  | (ReadOutcome.wantRead, s') =>
      if sock_data.isEmpty then (ReadOutcome.ok [], s')
      else SecureTransportBuffer.read er (some bufsize)
             (receive_bytes_from_network s' sock_data)
  | r => r

end WrappedSocket

/-- A concrete deterministic engine used for scenario evaluation: SSLRead
would-blocks, consuming nothing, until at least two ciphertext bytes are
staged in ingress, and then returns one byte of plaintext per staged byte. -/
def demoEngineRead (s : BufState) (amt : Nat) : EngineReadRes :=
  if s.receive_buffer.length < 2 then EngineReadRes.wouldBlock s
  else EngineReadRes.ok (s.receive_buffer.take amt)
         ⟨s.receive_buffer.drop amt, s.send_buffer⟩

/-- C2, evaluated at the failing input: on a blocking socket with empty
ingress, an engine whose next record needs two ciphertext bytes, and the
single socket recv delivering one byte, WrappedSocket.recv raises
WantReadError to the application instead of resolving it with further
socket reads — the recv path has no retry loop, so in blocking mode the
would-block signal still surfaces, contradicting the claim (the source
itself asks, tlsapi.py 124-125, whether a loop is needed to prevent
exactly this). -/
theorem c2_blocking_recv_raises :
    (WrappedSocket.recv demoEngineRead [7] ⟨[], []⟩ 5).1 = ReadOutcome.wantRead := by
  decide

namespace WrappedSocket

/-- The egress drain loop inside WrappedSocket.unwrap (tlsapi.py 107-112):
peek up to 8192 egress bytes, send them to the socket, consume the confirmed
count, until egress is empty. The k-th socket send confirms up to sends_k of
the offered bytes; the length of sends bounds how many sends can occur. -/
def drainEgress : List Nat → BufState → BufState
  | [], s => s
  | k :: rest, s =>
      let some_data := peek_bytes s 8192
      if some_data.isEmpty then s
      else drainEgress rest (consume_bytes s (min k some_data.length))

/-- Result of WrappedSocket.unwrap / WrappedSocket.close: the final buffer
state and whether the raw socket was closed, or a propagated signal. -/
inductive UnwrapResult where
  | ok (buf : BufState) (socketClosed : Bool)
  | wantRead
  | wantWrite
  | engineError
deriving DecidableEq

/-- Embedding of WrappedSocket.unwrap (tlsapi.py 103-114): calls
self._buffer.shutdown() — its engine close call characterized by close_acts
and close_st — and only when shutdown returns normally drains egress to the
socket and hands back the raw socket without closing it; an exception raised
by shutdown propagates before any draining happens. -/
def unwrap (close_acts : List EngineAct) (close_st : EngineStatus)
    (sends : List Nat) (s : BufState) : UnwrapResult :=
  match SecureTransportBuffer.shutdown close_acts close_st s with
  | (TLSResult.ok, s') => UnwrapResult.ok (drainEgress sends s') false
  | (TLSResult.wantRead, _) => UnwrapResult.wantRead
  | (TLSResult.wantWrite, _) => UnwrapResult.wantWrite
  | (TLSResult.engineError, _) => UnwrapResult.engineError

/-- Embedding of WrappedSocket.close (tlsapi.py 116-121): self.unwrap()
followed by closing the raw socket. -/
def close (close_acts : List EngineAct) (close_st : EngineStatus)
    (sends : List Nat) (s : BufState) : UnwrapResult :=
  match unwrap close_acts close_st sends s with
  | UnwrapResult.ok b _ => UnwrapResult.ok b true
  | r => r

end WrappedSocket

theorem drainEgress_empties (sends : List Nat) (s : BufState)
    (hks : ∀ k ∈ sends, 1 ≤ k)
    (hn : s.send_buffer.length ≤ sends.length) :
    (WrappedSocket.drainEgress sends s).send_buffer = [] := by
  induction sends generalizing s with
  | nil =>
    have hz : s.send_buffer = [] := by
      cases hsb : s.send_buffer with
      | nil => rfl
      | cons b bs =>
        rw [hsb] at hn
        simp at hn
    simp [WrappedSocket.drainEgress, hz]
  | cons k rest ih =>
    by_cases he : s.send_buffer = []
    · unfold WrappedSocket.drainEgress
      simp [peek_bytes, he]
    · have hlenpos : 0 < s.send_buffer.length := List.length_pos.mpr he
      have hpeeklen : (peek_bytes s 8192).length = min 8192 s.send_buffer.length := by
        simp [peek_bytes, List.length_take]
      have hpeek : ¬ (peek_bytes s 8192).isEmpty = true := by
        intro hnil
        rw [List.isEmpty_iff] at hnil
        have hlen := congrArg List.length hnil
        rw [hpeeklen] at hlen
        simp only [List.length_nil] at hlen
        omega
      have hk1 : 1 ≤ k := hks k (List.mem_cons_self k rest)
      unfold WrappedSocket.drainEgress
      rw [if_neg hpeek]
      apply ih
      · intro k' hk'
        exact hks k' (List.mem_cons_of_mem k hk')
      · have hm : 1 ≤ min k (peek_bytes s 8192).length := by
          rw [hpeeklen]
          omega
        simp only [consume_bytes, List.length_drop]
        rw [List.length_cons] at hn
        omega

/-- C7 counterexample: when the engine close call stages close-notify bytes
in egress and returns would-block — the ordinary situation for a shutdown
whose output has not reached the peer yet — unwrap propagates WantWriteError
without draining anything and without returning the raw socket, refuting the
claim that unwrap drains egress regardless of further signals from the
shutdown step and then returns the socket. -/
theorem c7_counterexample :
    WrappedSocket.unwrap [EngineAct.engineWrite [21, 3, 3]] EngineStatus.wouldBlock
        [8192] ⟨[], []⟩ = WrappedSocket.UnwrapResult.wantWrite := by
  decide

/-- C7 amended: when the shutdown step returns normally, unwrap() drains the
egress buffer to the socket until it is empty and returns the raw wrapped
socket without closing it, and close() performs the same sequence and
additionally closes the raw socket; but when the shutdown step raises a
would-block signal, unwrap() propagates that signal immediately and performs
no draining. -/
theorem c7_amended (close_acts : List EngineAct) (close_st : EngineStatus)
    (sends : List Nat) (s : BufState)
    (hks : ∀ k ∈ sends, 1 ≤ k)
    (hn : (runActs close_acts s).send_buffer.length ≤ sends.length) :
    (WrappedSocket.unwrap close_acts EngineStatus.ok sends s =
        WrappedSocket.UnwrapResult.ok
          (WrappedSocket.drainEgress sends (runActs close_acts s)) false ∧
      (WrappedSocket.drainEgress sends (runActs close_acts s)).send_buffer = [] ∧
      WrappedSocket.close close_acts EngineStatus.ok sends s =
        WrappedSocket.UnwrapResult.ok
          (WrappedSocket.drainEgress sends (runActs close_acts s)) true) ∧
    ((SecureTransportBuffer.shutdown close_acts close_st s).1 = TLSResult.wantRead →
      WrappedSocket.unwrap close_acts close_st sends s =
        WrappedSocket.UnwrapResult.wantRead) ∧
    ((SecureTransportBuffer.shutdown close_acts close_st s).1 = TLSResult.wantWrite →
      WrappedSocket.unwrap close_acts close_st sends s =
        WrappedSocket.UnwrapResult.wantWrite) := by
  have hok : WrappedSocket.unwrap close_acts EngineStatus.ok sends s =
      WrappedSocket.UnwrapResult.ok
        (WrappedSocket.drainEgress sends (runActs close_acts s)) false := rfl
  refine ⟨⟨hok, drainEgress_empties sends (runActs close_acts s) hks hn, ?_⟩, ?_, ?_⟩
  · unfold WrappedSocket.close
    rw [hok]
  · intro hr
    unfold WrappedSocket.unwrap
    cases hsd : SecureTransportBuffer.shutdown close_acts close_st s with
    | mk r s' =>
      rw [hsd] at hr
      cases r <;> simp_all
  · intro hr
    unfold WrappedSocket.unwrap
    cases hsd : SecureTransportBuffer.shutdown close_acts close_st s with
    | mk r s' =>
      rw [hsd] at hr
      cases r <;> simp_all

/-- Witness for C7 amended: a shutdown that would-blocks after staging two
egress bytes makes unwrap propagate WantWriteError, and the drain hypotheses
hold at two one-byte sends. -/
theorem c7_amended_witness :
    WrappedSocket.unwrap [EngineAct.engineWrite [1, 2]] EngineStatus.wouldBlock
        [1, 1] ⟨[], []⟩ = WrappedSocket.UnwrapResult.wantWrite :=
  (c7_amended [EngineAct.engineWrite [1, 2]] EngineStatus.wouldBlock [1, 1] ⟨[], []⟩
      (by decide) (by decide)).2.2 (by decide)

/-- Result of one socket recv call: bytes returned (the empty list on peer
EOF), or the OS would-block error a non-blocking socket raises when no data
is available. -/
inductive SockRecvRes where
  | data (bs : List Byte)
  | wouldBlock

/-- Terminal outcome of a WrappedSocket.do_handshake invocation: handshake
completed, one of the surfaced signalling exceptions, a propagated fatal
engine error, the socket recv would-block error propagating, or fuel
exhaustion (a model artifact bounding the unbounded Python while loop). -/
inductive HsResult where
  | ok
  | wantRead
  | wantWrite
  | engineError
  | sockWouldBlock
  | fuelExhausted
deriving DecidableEq

/-- Outcome of the handshake retry loop, together with how many socket recv
and send calls the invocation performed and the final buffer state. -/
structure HsOutcome where
  result : HsResult
  recvCalls : Nat
  sendCalls : Nat
  buf : BufState
deriving DecidableEq

namespace WrappedSocket

/-- The while-True retry loop of WrappedSocket.do_handshake (tlsapi.py
54-87), with explicit fuel. The k-th engine handshake call is characterized
by eng k (callback trace and status); recvs k gives the k-th socket recv
result; sends k bounds how many bytes the k-th socket send confirms. On
WantReadError: if the socket is non-blocking and IO was already done, the
signal propagates; otherwise one recv runs (raising its own would-block
error if the socket has no data), its bytes are fed to ingress and done_io
is set. On WantWriteError: if non-blocking and IO was already done, the
signal propagates; otherwise up to 8192 egress bytes are peeked, sent, and
the confirmed count consumed (done_io stays unchanged). -/
def handshakeLoop (eng : Nat → List EngineAct × EngineStatus)
    (recvs : Nat → SockRecvRes) (sends : Nat → Nat) (blocking : Bool) :
    Nat → Nat → Nat → Nat → Bool → BufState → HsOutcome
  | 0, _, ri, si, _, s => ⟨HsResult.fuelExhausted, ri, si, s⟩
  | fuel + 1, ei, ri, si, done_io, s =>
    match SecureTransportBuffer.do_handshake (eng ei).1 (eng ei).2 s with
    | (TLSResult.ok, s') => ⟨HsResult.ok, ri, si, s'⟩
    | (TLSResult.engineError, s') => ⟨HsResult.engineError, ri, si, s'⟩
    | (TLSResult.wantRead, s') =>
        if !blocking && done_io then ⟨HsResult.wantRead, ri, si, s'⟩
        else
          match recvs ri with
          | SockRecvRes.wouldBlock => ⟨HsResult.sockWouldBlock, ri + 1, si, s'⟩
          | SockRecvRes.data bs =>
              handshakeLoop eng recvs sends blocking fuel (ei + 1) (ri + 1) si true
                (receive_bytes_from_network s' bs)
    | (TLSResult.wantWrite, s') =>
        if !blocking && done_io then ⟨HsResult.wantWrite, ri, si, s'⟩
        else
          handshakeLoop eng recvs sends blocking fuel (ei + 1) ri (si + 1) done_io
            (consume_bytes s' (min (sends si) (peek_bytes s' 8192).length))

/-- Embedding of WrappedSocket.do_handshake (tlsapi.py 54-87): the retry
loop started with fresh indices, done_io = False and the given blocking
mode (gettimeout() is None means blocking). -/
def do_handshake (eng : Nat → List EngineAct × EngineStatus)
    (recvs : Nat → SockRecvRes) (sends : Nat → Nat) (blocking : Bool)
    (fuel : Nat) (s : BufState) : HsOutcome :=
  handshakeLoop eng recvs sends blocking fuel 0 0 0 false s

end WrappedSocket

/-- C3: on a non-blocking socket with empty ingress and empty egress, when
the engine handshake call would-blocks needing input (no egress bytes
staged) and the socket has no data available — so its single recv raises the
OS would-block error, the needs-more-input signal of a non-blocking socket —
WrappedSocket.do_handshake performs exactly one socket receive attempt, no
sends, propagates that signal, and terminates identically for every
remaining fuel: it never loops on further socket calls in this invocation. -/
theorem c3_nonblocking_single_recv
    (eng : Nat → List EngineAct × EngineStatus) (recvs : Nat → SockRecvRes)
    (sends : Nat → Nat) (fuel : Nat) (s : BufState) (acts : List EngineAct)
    (hfuel : 1 ≤ fuel)
    (hingress : s.receive_buffer = [])
    (hegress : s.send_buffer = [])
    (heng : eng 0 = (acts, EngineStatus.wouldBlock))
    (hw : writesOf acts = [])
    (hrecv : recvs 0 = SockRecvRes.wouldBlock) :
    WrappedSocket.do_handshake eng recvs sends false fuel s =
      ⟨HsResult.sockWouldBlock, 1, 0, runActs acts s⟩ := by
  obtain ⟨f, rfl⟩ : ∃ f, fuel = f + 1 := ⟨fuel - 1, by omega⟩
  have hempty : (runActs acts s).send_buffer.isEmpty = true := by
    rw [List.isEmpty_iff, runActs_send_buffer, hegress, hw]
    rfl
  have hbuf : SecureTransportBuffer.do_handshake (eng 0).1 (eng 0).2 s =
      (TLSResult.wantRead, runActs acts s) := by
    rw [heng]
    simp [SecureTransportBuffer.do_handshake, hempty]
  unfold WrappedSocket.do_handshake WrappedSocket.handshakeLoop
  rw [hbuf]
  simp [hrecv]

/-- Witness for C3: a concrete engine that always would-blocks without IO
and a socket that never has data make the non-blocking handshake stop with
the would-block signal after exactly one receive attempt. -/
theorem c3_nonblocking_single_recv_witness :
    WrappedSocket.do_handshake (fun _ => ([], EngineStatus.wouldBlock))
        (fun _ => SockRecvRes.wouldBlock) (fun _ => 0) false 3 ⟨[], []⟩ =
      ⟨HsResult.sockWouldBlock, 1, 0, runActs [] ⟨[], []⟩⟩ :=
  c3_nonblocking_single_recv (fun _ => ([], EngineStatus.wouldBlock))
    (fun _ => SockRecvRes.wouldBlock) (fun _ => 0) 3 ⟨[], []⟩ []
    (by decide) rfl rfl rfl rfl rfl

/-- The TLSVersion enum of tls.py 465-473. -/
inductive TLSVersion where
  | MINIMUM_SUPPORTED
  | SSLv2
  | SSLv3
  | TLSv1
  | TLSv1_1
  | TLSv1_2
  | TLSv1_3
  | MAXIMUM_SUPPORTED
deriving DecidableEq

/-- The CipherSuite enum of tls.py 448-451. -/
inductive CipherSuite where
  | TLS_ECDHE_RSA_WITH_3DES_EDE_CBC_SHA
  | TLS_ECDHE_ECDSA_WITH_AES_128_CCM
  | TLS_ECDHE_ECDSA_WITH_AES_128_GCM_SHA256
deriving DecidableEq

/-- An inner protocol entry (a NextProtocol value or a raw byte string),
abstracted to its byte representation. -/
abbrev InnerProtocol := List Byte

/-- The TLSConfiguration namedtuple (tls.py 33-141). A field whose Python
value may be None is an Option; opaque values (certificate chains, trust
stores, server-name callbacks) are identified abstractly by Nat. -/
structure TLSConfiguration where
  validate_certificates : Option Bool
  certificate_chain : Option Nat
  ciphers : Option (List CipherSuite)
  inner_protocols : Option (List InnerProtocol)
  lowest_supported_version : Option TLSVersion
  highest_supported_version : Option TLSVersion
  trust_store : Option Nat
  sni_callback : Option Nat
deriving DecidableEq

/-- Modelled from the spec: DEFAULT_CIPHER_LIST is referenced by
TLSConfiguration.__new__ (tls.py 126) but defined nowhere in the source
files; the spec describes the field only as a cipher priority list, so it is
modelled as the priority list of the cipher suites the source enumerates.
No claim below depends on its value. -/
def DEFAULT_CIPHER_LIST : List CipherSuite :=
  [CipherSuite.TLS_ECDHE_RSA_WITH_3DES_EDE_CBC_SHA,
   CipherSuite.TLS_ECDHE_ECDSA_WITH_AES_128_CCM,
   CipherSuite.TLS_ECDHE_ECDSA_WITH_AES_128_GCM_SHA256]

/-- Embedding of TLSConfiguration.__new__ (tls.py 113-141): a None argument
for one of the five defaulted fields is replaced by that field's default
(validate_certificates True, ciphers DEFAULT_CIPHER_LIST, inner_protocols
empty, lowest TLSv1, highest MAXIMUM_SUPPORTED); the other three arguments
are stored verbatim. -/
def TLSConfiguration.new (validate_certificates : Option Bool)
    (certificate_chain : Option Nat) (ciphers : Option (List CipherSuite))
    (inner_protocols : Option (List InnerProtocol))
    (lowest_supported_version highest_supported_version : Option TLSVersion)
    (trust_store sni_callback : Option Nat) : TLSConfiguration :=
  ⟨some (validate_certificates.getD true),
   certificate_chain,
   some (ciphers.getD DEFAULT_CIPHER_LIST),
   some (inner_protocols.getD []),
   some (lowest_supported_version.getD TLSVersion.TLSv1),
   some (highest_supported_version.getD TLSVersion.MAXIMUM_SUPPORTED),
   trust_store,
   sni_callback⟩

/-- Embedding of TLSConfiguration.update (tls.py 143-183). An outer none
models the _DEFAULT_VALUE sentinel (field not supplied); some v models a
supplied value v, itself an Option because the caller can pass None. Each
unsupplied argument is replaced by the corresponding field of self, and the
result is built through TLSConfiguration.new (self.__class__(...)), whose
None-defaulting therefore also applies to supplied None values. -/
def TLSConfiguration.update (self : TLSConfiguration)
    (validate_certificates : Option (Option Bool))
    (certificate_chain : Option (Option Nat))
    (ciphers : Option (Option (List CipherSuite)))
    (inner_protocols : Option (Option (List InnerProtocol)))
    (lowest_supported_version highest_supported_version : Option (Option TLSVersion))
    (trust_store sni_callback : Option (Option Nat)) : TLSConfiguration :=
  TLSConfiguration.new
    (validate_certificates.getD self.validate_certificates)
    (certificate_chain.getD self.certificate_chain)
    (ciphers.getD self.ciphers)
    (inner_protocols.getD self.inner_protocols)
    (lowest_supported_version.getD self.lowest_supported_version)
    (highest_supported_version.getD self.highest_supported_version)
    (trust_store.getD self.trust_store)
    (sni_callback.getD self.sni_callback)

/-- Invariant of every configuration produced by TLSConfiguration.new: the
five defaulted fields are never None. -/
def TLSConfiguration.wf (c : TLSConfiguration) : Prop :=
  c.validate_certificates.isSome ∧ c.ciphers.isSome ∧ c.inner_protocols.isSome ∧
    c.lowest_supported_version.isSome ∧ c.highest_supported_version.isSome

/-- C9: a TLSConfiguration constructed without explicit arguments has
validate_certificates True (certificate validation on by default), empty
inner_protocols, lowest supported version TLSv1 and highest supported
version MAXIMUM_SUPPORTED. -/
theorem c9_default_configuration :
    (TLSConfiguration.new none none none none none none none none).validate_certificates
        = some true ∧
      (TLSConfiguration.new none none none none none none none
          none).inner_protocols = some [] ∧
      (TLSConfiguration.new none none none none none none none
          none).lowest_supported_version = some TLSVersion.TLSv1 ∧
      (TLSConfiguration.new none none none none none none none
          none).highest_supported_version = some TLSVersion.MAXIMUM_SUPPORTED :=
  ⟨rfl, rfl, rfl, rfl⟩

/-- C8 counterexample: update routes every argument through __new__, whose
None-defaulting also rewrites supplied values. Supplying the value None for
validate_certificates to a configuration whose current value is False yields
True — neither the supplied value (None) nor the original (False) — refuting
the claim that every supplied field ends up holding the supplied value. -/
theorem c8_counterexample :
    ((TLSConfiguration.new (some false) none none none none none none none).update
          (some none) none none none none none none none).validate_certificates
        = some true ∧
      some true ≠ (none : Option Bool) ∧
      (TLSConfiguration.new (some false) none none none none none none
          none).validate_certificates = some false := by
  decide

/-- C8 amended: for every configuration c built by the constructor (so its
five defaulted fields are non-None) and every subset of supplied arguments,
update returns a new configuration in which each supplied field holds the
supplied value after the constructor's None-defaulting (a supplied None for
validate_certificates, ciphers, inner_protocols or the two version bounds
becomes that field's default; it is stored verbatim for certificate_chain,
trust_store and sni_callback), every field not supplied equals the
corresponding field of c, and update with no arguments returns a
configuration equal to c; c itself, an immutable value, is unchanged. -/
theorem c8_amended (c : TLSConfiguration) (hwf : c.wf)
    (vc : Option (Option Bool)) (cc : Option (Option Nat))
    (ci : Option (Option (List CipherSuite)))
    (ip : Option (Option (List InnerProtocol)))
    (lo hi : Option (Option TLSVersion)) (ts sni : Option (Option Nat)) :
    (c.update vc cc ci ip lo hi ts sni).validate_certificates =
        (match vc with
         | none => c.validate_certificates
         | some v => some (v.getD true)) ∧
      (c.update vc cc ci ip lo hi ts sni).certificate_chain =
        cc.getD c.certificate_chain ∧
      (c.update vc cc ci ip lo hi ts sni).ciphers =
        (match ci with
         | none => c.ciphers
         | some v => some (v.getD DEFAULT_CIPHER_LIST)) ∧
      (c.update vc cc ci ip lo hi ts sni).inner_protocols =
        (match ip with
         | none => c.inner_protocols
         | some v => some (v.getD [])) ∧
      (c.update vc cc ci ip lo hi ts sni).lowest_supported_version =
        (match lo with
         | none => c.lowest_supported_version
         | some v => some (v.getD TLSVersion.TLSv1)) ∧
      (c.update vc cc ci ip lo hi ts sni).highest_supported_version =
        (match hi with
         | none => c.highest_supported_version
         | some v => some (v.getD TLSVersion.MAXIMUM_SUPPORTED)) ∧
      (c.update vc cc ci ip lo hi ts sni).trust_store = ts.getD c.trust_store ∧
      (c.update vc cc ci ip lo hi ts sni).sni_callback = sni.getD c.sni_callback ∧
      c.update none none none none none none none none = c := by
  obtain ⟨vcf, ccf, cif, ipf, lof, hif, tsf, snif⟩ := c
  obtain ⟨hv, hci, hip, hlo, hhi⟩ := hwf
  obtain ⟨bv, rfl⟩ := Option.isSome_iff_exists.mp hv
  obtain ⟨bci, rfl⟩ := Option.isSome_iff_exists.mp hci
  obtain ⟨bip, rfl⟩ := Option.isSome_iff_exists.mp hip
  obtain ⟨blo, rfl⟩ := Option.isSome_iff_exists.mp hlo
  obtain ⟨bhi, rfl⟩ := Option.isSome_iff_exists.mp hhi
  exact ⟨by cases vc <;> rfl, rfl, by cases ci <;> rfl, by cases ip <;> rfl,
    by cases lo <;> rfl, by cases hi <;> rfl, rfl, rfl, rfl⟩

/-- Witness for C8 amended: update with no arguments on the default
configuration returns a configuration equal to it. -/
theorem c8_amended_witness :
    (TLSConfiguration.new none none none none none none none none).update
        none none none none none none none none =
      TLSConfiguration.new none none none none none none none none :=
  (c8_amended (TLSConfiguration.new none none none none none none none none)
      ⟨rfl, rfl, rfl, rfl, rfl⟩ none none none none none none none none).2.2.2.2.2.2.2.2

end SecureTransportScratch
